import Mathlib

/-!
Verification development for the payment-roster core of the
`telegram-bot-payment` repository.

The loader side embeds `payments_excel_loader.py` (class `PaymentsExcelLoader`):
sheet traversal, two-stage expiration-date parsing, duplicate-username
handling and the row-level error accumulator.  The remover side embeds
`member/members_kicker.py` (class `MembersKicker`) and
`member/members_username_getter.py` (class `MembersUsernameGetter`) as pure
functions producing an explicit trace of external-service events.

External collaborators that are not part of the repository sources
(`xlrd` date conversion, Python `datetime.strptime`/`str.strip`, the
`PaymentsData`/`PaymentsDataErrors` containers, Telegram client calls) are
modelled from the spec where a claim depends on them; each such definition
says so in its doc comment.
-/

namespace TgPayBot

/-! ## Calendar dates -/

/-- A calendar date at day granularity (proleptic Gregorian, as used by
Python `datetime`). -/
structure Date where
  year : Nat
  month : Nat
  day : Nat
deriving DecidableEq

/-- Gregorian leap-year rule (Python `calendar.isleap`). -/
def isLeap (y : Nat) : Bool :=
  y % 4 == 0 && (y % 100 != 0 || y % 400 == 0)

/-- Number of days in a month (Python `calendar.monthrange`). -/
def daysInMonth (y m : Nat) : Nat :=
  if m == 2 then (if isLeap y then 29 else 28)
  else if m == 4 || m == 6 || m == 9 || m == 11 then 30
  else 31

/-- A structurally valid calendar date. -/
abbrev ValidDate (d : Date) : Prop :=
  (1 ≤ d.month ∧ d.month ≤ 12) ∧ (1 ≤ d.day ∧ d.day ≤ daysInMonth d.year d.month)

/-- The day after `d` (Python `date + timedelta(days=1)`). -/
def succDate (d : Date) : Date :=
  if d.day < daysInMonth d.year d.month then ⟨d.year, d.month, d.day + 1⟩
  else if d.month < 12 then ⟨d.year, d.month + 1, 1⟩
  else ⟨d.year + 1, 1, 1⟩

/-- `d` advanced by `n` days (Python `date + timedelta(days=n)`). -/
def addDays : Date → Nat → Date
  | d, 0 => d
  | d, n + 1 => addDays (succDate d) n

/-- Modelled from the spec: the numeric date serial conversion performed by
the external `xlrd.xldate_as_datetime(expiration, 0)` used at
`payments_excel_loader.py` line 118.  In the 1900 date system (datemode 0),
a serial below 60 is counted from epoch 1899-12-31 and a serial of 60 or
more from epoch 1899-12-30 (xlrd's workaround for the Excel 1900 leap-year
bug); the result is the epoch advanced by the serial number of days.
Day granularity: fractional serials carry a time of day the loader never
compares, so serials are taken as naturals. -/
def dateOfSerial (n : Nat) : Date :=
  if n < 60 then addDays ⟨1899, 12, 31⟩ n else addDays ⟨1899, 12, 30⟩ n

/-! ## Digits, formatting, `%d/%m/%Y` parsing -/

/-- The ASCII digit character for `x < 10`. -/
def digitOf (x : Nat) : Char := Char.ofNat (48 + x)

/-- Numeric value of an ASCII digit character. -/
def charVal (c : Char) : Nat := c.toNat - 48

/-- Whether `c` is an ASCII digit. -/
def isDigitC (c : Char) : Bool := 48 ≤ c.toNat && c.toNat ≤ 57

/-- Modelled from the spec: the whitespace set of Python `str.strip`
(restricted to ASCII whitespace). -/
def isPySpace (c : Char) : Bool :=
  c == ' ' || c == '\t' || c == '\n' || c == '\r' || c == '\x0b' || c == '\x0c'

/-- Modelled from the spec: Python `str.strip()` — drop leading and
trailing whitespace (used on email, username and on the expiration string
before `strptime`). -/
def pyStrip (s : String) : String :=
  ⟨((s.data.dropWhile isPySpace).reverse.dropWhile isPySpace).reverse⟩

/-- Character list of a date rendered in the configured default pattern
`%d/%m/%Y` (`payment_bot_config_cfg.py`, `payment_date_format` default):
zero-padded two-digit day and month, four-digit year. -/
def fmtChars (d : Date) : List Char :=
  [digitOf (d.day / 10), digitOf (d.day % 10), '/',
   digitOf (d.month / 10), digitOf (d.month % 10), '/',
   digitOf (d.year / 1000 % 10), digitOf (d.year / 100 % 10),
   digitOf (d.year / 10 % 10), digitOf (d.year % 10)]

/-- Modelled from the spec: `strftime`-style rendering of a date in the
default configured pattern `%d/%m/%Y`. -/
def formatDMY (d : Date) : String := ⟨fmtChars d⟩

/-- Consume one or two leading ASCII digits (greedy), as Python
`strptime`'s `%d`/`%m` fields do. -/
def take2Digits : List Char → Option (Nat × List Char)
  | [] => none
  | c1 :: rest =>
    if isDigitC c1 then
      match rest with
      | c2 :: rest2 =>
        if isDigitC c2 then some (charVal c1 * 10 + charVal c2, rest2)
        else some (charVal c1, c2 :: rest2)
      | [] => some (charVal c1, [])
    else none

/-- Consume exactly four leading ASCII digits, as Python `strptime`'s `%Y`
field does. -/
def take4Digits : List Char → Option (Nat × List Char)
  | c1 :: c2 :: c3 :: c4 :: rest =>
    if isDigitC c1 && isDigitC c2 && isDigitC c3 && isDigitC c4 then
      some (charVal c1 * 1000 + charVal c2 * 100 + charVal c3 * 10 + charVal c4, rest)
    else none
  | _ => none

/-- Consume a literal `/`. -/
def expectSlash : List Char → Option (List Char)
  | '/' :: rest => some rest
  | _ => none

/-- Modelled from the spec: Python `datetime.strptime(s, "%d/%m/%Y")` at
day granularity — day, `/`, month, `/`, four-digit year, whole input
consumed, and the component ranges `datetime` enforces (month 1–12, day
within the month, year at least 1). -/
def parseDMYChars (cs : List Char) : Option Date :=
  match take2Digits cs with
  | none => none
  | some (d, cs1) =>
    match expectSlash cs1 with
    | none => none
    | some cs2 =>
      match take2Digits cs2 with
      | none => none
      | some (m, cs3) =>
        match expectSlash cs3 with
        | none => none
        | some cs4 =>
          match take4Digits cs4 with
          | none => none
          | some (y, rest) =>
            match rest with
            | [] =>
              if 1 ≤ y ∧ 1 ≤ m ∧ m ≤ 12 ∧ 1 ≤ d ∧ d ≤ daysInMonth y m then
                some ⟨y, m, d⟩
              else none
            | _ => none

/-- `strptime` with the default configured format, on a string. -/
def strptimeDMY (s : String) : Option Date := parseDMYChars s.data

/-! ## Cells and the two-stage expiration parse -/

/-- A raw spreadsheet cell value as handed over by `xlrd.cell_value`:
either numeric or text (day granularity, so numerics are naturals). -/
inductive Cell where
  | Num : Nat → Cell
  | Str : String → Cell
deriving DecidableEq

/-- Python `str()` applied to a cell value. -/
def cellStr : Cell → String
  | Cell.Num n => toString n
  | Cell.Str s => s

/-- The two-stage expiration parse of `PaymentsExcelLoader.__AddPayment`
(lines 117–123): try `xlrd.xldate_as_datetime(expiration, 0)` first, which
succeeds exactly when the cell is numeric (it raises `TypeError` on a
string); only then fall back to
`datetime.strptime(expiration.strip(), payment_date_format)`. -/
def parseExpirationCell : Cell → Option Date
  | Cell.Num n => some (dateOfSerial n)
  | Cell.Str s => strptimeDMY (pyStrip s)

/-! ## Payment data, errors, the Excel loader -/

/-- A parsed payment row (`SinglePayment` of `payments_data.py`):
email, username, expiration date. -/
structure SinglePayment where
  email : String
  username : String
  expiration : Date
deriving DecidableEq

/-- The two row-level error kinds (`PaymentErrorTypes` of `payments_data.py`). -/
inductive PaymentErrorTypes where
  | INVALID_DATE_ERR : PaymentErrorTypes
  | DUPLICATED_USERNAME_ERR : PaymentErrorTypes
deriving DecidableEq

/-- One accumulated row-level error, as recorded by
`PaymentsDataErrors.AddPaymentError(type, row, username, value)`:
the stored row number is whatever number the loader passes, and the raw
offending cell value is kept when given. -/
structure PaymentErrorEntry where
  errType : PaymentErrorTypes
  row : Nat
  username : String
  rawValue : Option Cell
deriving DecidableEq

/-- Modelled from the spec: `PaymentsData` (absent `payments_data.py`) is a
mapping username → record, kept here as the list of records in insertion
order with at most one record per username. -/
abbrev PaymentsData := List SinglePayment

/-- Modelled from the spec: `PaymentsDataErrors` (absent
`payments_data.py`) is the append-only ordered sequence of error entries. -/
abbrev PaymentsDataErrors := List PaymentErrorEntry

/-- Modelled from the spec: `PaymentsData.AddPayment(email, username, date)`
— insert and answer `true` if the username is new, answer `false` and leave
the data unchanged if the username is already present (first occurrence
wins; do not overwrite). -/
def addPaymentData (pd : PaymentsData) (email username : String) (dt : Date) :
    Option PaymentsData :=
  if pd.any (fun p => p.username == username) then none
  else some (pd ++ [⟨email, username, dt⟩])

/-- Modelled from the spec: `PaymentsData.GetByUsername` — look the
username up in the roster. -/
def GetByUsername (pd : PaymentsData) (username : String) : Option SinglePayment :=
  pd.find? (fun p => p.username == username)

/-- `PaymentsExcelLoader.__AddPayment` (lines 109–145): parse the
expiration cell in two stages; on failure record one `INVALID_DATE_ERR`
carrying `row_idx + 1`, the username and the raw cell value, and skip the
row; otherwise try to insert, and on a duplicate username record one
`DUPLICATED_USERNAME_ERR` carrying `row_idx + 1` and the username and keep
the data unchanged. -/
def addPayment (rowIdx : Nat) (pd : PaymentsData) (pe : PaymentsDataErrors)
    (email username : String) (expiration : Cell) :
    PaymentsData × PaymentsDataErrors :=
  match parseExpirationCell expiration with
  | none =>
    (pd, pe ++ [⟨PaymentErrorTypes.INVALID_DATE_ERR, rowIdx + 1, username, some expiration⟩])
  | some dt =>
    match addPaymentData pd email username dt with
    | some pd2 => (pd2, pe)
    | none =>
      (pd, pe ++ [⟨PaymentErrorTypes.DUPLICATED_USERNAME_ERR, rowIdx + 1, username, none⟩])

/-- One sheet row, already projected onto the three configured columns
(email, username, expiration — pairwise distinct single letters, validated
upstream by the config layer). -/
structure Row where
  email : Cell
  username : Cell
  expiration : Cell
deriving DecidableEq

/-- A sheet: the rows in order; index 0 is the header row. -/
abbrev Sheet := List Row

/-- The row loop of `PaymentsExcelLoader.__LoadSheet` (lines 94–104),
with `i` the 0-based sheet index of the first row of the remaining list:
skip row 0 (header); `str(...).strip()` the email and username cells; skip
rows whose stripped username is empty; hand every other row to
`__AddPayment` with its sheet index. -/
def loadSheetAux : Nat → List Row → PaymentsData → PaymentsDataErrors →
    PaymentsData × PaymentsDataErrors
  | _, [], pd, pe => (pd, pe)
  | i, r :: rs, pd, pe =>
    if i > 0 then
      let email := pyStrip (cellStr r.email)
      let username := pyStrip (cellStr r.username)
      if username ≠ "" then
        let s := addPayment i pd pe email username r.expiration
        loadSheetAux (i + 1) rs s.1 s.2
      else loadSheetAux (i + 1) rs pd pe
    else loadSheetAux (i + 1) rs pd pe

/-- `PaymentsExcelLoader.__LoadSheet` (lines 83–106): fresh empty data and
error accumulators, then the row loop from row 0. -/
def loadSheet (rows : Sheet) : PaymentsData × PaymentsDataErrors :=
  loadSheetAux 0 rows [] []

/-- The result of opening the payment workbook
(`PaymentsExcelLoader.__GetSheet`, lines 148–152): either the sheet at
index 0 or the I/O / format exception `xlrd.open_workbook` raised. -/
abbrev OpenedSource := Except String Sheet

/-- `PaymentsExcelLoader.__LoadAndCheckAll` (lines 58–80): on a
successfully opened sheet, load it; any exception is logged and re-raised
unchanged, so no roster/errors pair is produced. -/
def LoadAndCheckAll (src : OpenedSource) :
    Except String (PaymentsData × PaymentsDataErrors) :=
  match src with
  | Except.error e => Except.error e
  | Except.ok rows => Except.ok (loadSheet rows)

/-- `PaymentsExcelLoader.LoadAll` (lines 45–46): first component of
`__LoadAndCheckAll`. -/
def LoadAll (src : OpenedSource) : Except String PaymentsData :=
  (LoadAndCheckAll src).map Prod.fst

/-- `PaymentsExcelLoader.CheckForErrors` (lines 54–55): second component
of `__LoadAndCheckAll`. -/
def CheckForErrors (src : OpenedSource) : Except String PaymentsDataErrors :=
  (LoadAndCheckAll src).map Prod.snd

/-- `PaymentsExcelLoader.LoadSingleByUsername` (lines 49–51):
`LoadAll().GetByUsername(username)`. -/
def LoadSingleByUsername (src : OpenedSource) (username : String) :
    Except String (Option SinglePayment) :=
  (LoadAll src).map (fun pd => GetByUsername pd username)

/-! ## Chat members, the username filter, the kicker -/

/-- A Telegram user as far as the core consumes it: id and optional
username. -/
structure User where
  id : Nat
  username : Option String
deriving DecidableEq

/-- A chat-member snapshot entry: its `user` field (which pyrogram may
leave absent). -/
structure ChatMember where
  user : Option User
deriving DecidableEq

/-- `MembersUsernameGetter.GetAllWithNoUsername` (lines 62–72): filter the
chat-member snapshot by
`IsValidMember(member) and member.user is not None and member.user.username is None`.
The external `MemberHelper.IsValidMember` check (genuine human account:
bots and deleted accounts excluded) is taken as the predicate argument. -/
def GetAllWithNoUsername (isValidMember : ChatMember → Bool)
    (members : List ChatMember) : List ChatMember :=
  members.filter (fun member =>
    isValidMember member &&
    match member.user with
    | none => false
    | some u => u.username.isNone)

/-- `MembersKickerConst.SLEEP_TIME_SEC = 0.01` seconds, in milliseconds. -/
def SLEEP_TIME_MS : Nat := 10

/-- One observable interaction of the kicker with the outside world:
a removal call handed to `BanHelper.KickUser` (carrying the `user` payload
exactly as passed), or a `time.sleep` for the given milliseconds. -/
inductive KickEvent where
  | kick : Option User → KickEvent
  | sleepMs : Nat → KickEvent
deriving DecidableEq

/-- `MembersKicker.__KickSingle` (lines 104–110): when test mode is off,
one `KickUser` call; when test mode is on, only a log line and no call. -/
def kickSingle (testMode : Bool) (user : User) : List KickEvent :=
  if testMode then [] else [KickEvent.kick (some user)]

/-- `MembersKicker.__KickMultiple` (lines 113–121): when test mode is off,
one `KickUser(chat, member.user)` call per member in snapshot order, each
followed by `time.sleep(SLEEP_TIME_SEC)`; when test mode is on, only a log
line and no call. -/
def kickMultiple (testMode : Bool) (members : List ChatMember) : List KickEvent :=
  if testMode then []
  else members.flatMap (fun member => [KickEvent.kick member.user, KickEvent.sleepMs SLEEP_TIME_MS])

/-- `MembersKicker.KickAllWithExpiredPayment` (lines 70–75): get the
expired members (the external `MembersPaymentGetter` is the function
argument), kick them all when the list is non-empty, and return the list
either way. -/
def KickAllWithExpiredPayment {Chat : Type} (testMode : Bool)
    (getAllMembersWithExpiredPayment : Chat → List ChatMember) (chat : Chat) :
    List ChatMember × List KickEvent :=
  let noPaymentMembers := getAllMembersWithExpiredPayment chat
  (noPaymentMembers,
   if !noPaymentMembers.isEmpty then kickMultiple testMode noPaymentMembers else [])

/-- `MembersKicker.KickSingleIfExpiredPayment` (lines 78–84): check the
single member (external `IsSingleMemberExpired` is the function argument),
kick when expired, return the check result either way. -/
def KickSingleIfExpiredPayment {Chat : Type} (testMode : Bool)
    (isSingleMemberExpired : Chat → User → Bool) (chat : Chat) (user : User) :
    Bool × List KickEvent :=
  let paymentExpired := isSingleMemberExpired chat user
  (paymentExpired, if paymentExpired then kickSingle testMode user else [])

/-- `MembersKicker.KickAllWithNoUsername` (lines 87–92): filter the
snapshot with `GetAllWithNoUsername`, kick them all when non-empty, return
the list either way. -/
def KickAllWithNoUsername {Chat : Type} (testMode : Bool)
    (isValidMember : ChatMember → Bool) (getMembers : Chat → List ChatMember)
    (chat : Chat) : List ChatMember × List KickEvent :=
  let noUsernameMembers := GetAllWithNoUsername isValidMember (getMembers chat)
  (noUsernameMembers,
   if !noUsernameMembers.isEmpty then kickMultiple testMode noUsernameMembers else [])

/-- `MembersKicker.KickSingleIfNoUsername` (lines 95–101): decide on
`user.username is None` alone, kick when it holds, return the decision
either way. -/
def KickSingleIfNoUsername (testMode : Bool) (user : User) :
    Bool × List KickEvent :=
  let noUsername := user.username.isNone
  (noUsername, if noUsername then kickSingle testMode user else [])

/-- The removal calls of a kicker trace, in order. -/
def kicksOf (tr : List KickEvent) : List (Option User) :=
  tr.filterMap (fun e =>
    match e with
    | KickEvent.kick u => some u
    | KickEvent.sleepMs _ => none)

/-- The usernames of a roster, in insertion order. -/
def usernames (pd : PaymentsData) : List String := pd.map (fun p => p.username)

end TgPayBot

namespace TgPayBot

/-! ## Lemmas: digits, month lengths, date validity -/

lemma isDigitC_digitOf {x : Nat} (h : x < 10) : isDigitC (digitOf x) = true := by
  interval_cases x <;> decide

lemma charVal_digitOf {x : Nat} (h : x < 10) : charVal (digitOf x) = x := by
  interval_cases x <;> decide

lemma isPySpace_digitOf {x : Nat} (h : x < 10) : isPySpace (digitOf x) = false := by
  interval_cases x <;> decide

lemma daysInMonth_le (y m : Nat) : daysInMonth y m ≤ 31 := by
  unfold daysInMonth
  split <;> [split <;> omega; split <;> omega]

lemma one_le_daysInMonth (y m : Nat) : 1 ≤ daysInMonth y m := by
  unfold daysInMonth
  split <;> [split <;> omega; split <;> omega]

lemma validDate_succDate {d : Date} (h : ValidDate d) : ValidDate (succDate d) := by
  obtain ⟨⟨hm1, hm2⟩, hd1, hd2⟩ := h
  unfold succDate
  split
  · show (1 ≤ d.month ∧ d.month ≤ 12) ∧ 1 ≤ d.day + 1 ∧ d.day + 1 ≤ daysInMonth d.year d.month
    omega
  · split
    · show (1 ≤ d.month + 1 ∧ d.month + 1 ≤ 12) ∧ 1 ≤ 1 ∧ 1 ≤ daysInMonth d.year (d.month + 1)
      have := one_le_daysInMonth d.year (d.month + 1)
      omega
    · show (1 ≤ 1 ∧ 1 ≤ 12) ∧ 1 ≤ 1 ∧ 1 ≤ daysInMonth (d.year + 1) 1
      have := one_le_daysInMonth (d.year + 1) 1
      omega

lemma year_le_succDate (d : Date) : d.year ≤ (succDate d).year := by
  unfold succDate
  split
  · exact Nat.le_refl _
  · split
    · exact Nat.le_refl _
    · exact Nat.le_succ _

lemma validDate_addDays {d : Date} (h : ValidDate d) (n : Nat) :
    ValidDate (addDays d n) := by
  induction n generalizing d with
  | zero => exact h
  | succ k ih => exact ih (validDate_succDate h)

lemma year_le_addDays (d : Date) (n : Nat) : d.year ≤ (addDays d n).year := by
  induction n generalizing d with
  | zero => exact Nat.le_refl _
  | succ k ih => exact Nat.le_trans (year_le_succDate d) (ih (succDate d))

lemma validDate_dateOfSerial (n : Nat) : ValidDate (dateOfSerial n) := by
  unfold dateOfSerial
  split
  · exact validDate_addDays (by decide) n
  · exact validDate_addDays (by decide) n

lemma year_dateOfSerial (n : Nat) : 1899 ≤ (dateOfSerial n).year := by
  unfold dateOfSerial
  split
  · exact year_le_addDays ⟨1899, 12, 31⟩ n
  · exact year_le_addDays ⟨1899, 12, 30⟩ n

/-! ## Lemmas: the `%d/%m/%Y` format/parse round trip -/

lemma pyStrip_formatDMY (d : Date) (hd : d.day < 100) :
    pyStrip (formatDMY d) = formatDMY d := by
  have h1 : d.day / 10 < 10 := by omega
  have h8 : d.year % 10 < 10 := by omega
  simp only [pyStrip, formatDMY]
  refine congrArg String.mk ?_
  simp only [fmtChars]
  rw [List.dropWhile_cons, if_neg (by simp [isPySpace_digitOf h1])]
  rw [show ∀ (a b c e f g i j k l : Char),
        ([a, b, c, e, f, g, i, j, k, l].reverse) = [l, k, j, i, g, f, e, c, b, a]
      from fun _ _ _ _ _ _ _ _ _ _ => rfl]
  rw [List.dropWhile_cons, if_neg (by simp [isPySpace_digitOf h8])]
  rfl

lemma take2Digits_digits (x : Nat) (hx : x < 100) (rest : List Char) :
    take2Digits (digitOf (x / 10) :: digitOf (x % 10) :: rest) = some (x, rest) := by
  have h1 : x / 10 < 10 := by omega
  have h2 : x % 10 < 10 := by omega
  have hx10 : x / 10 * 10 + x % 10 = x := by omega
  simp only [take2Digits, isDigitC_digitOf h1, isDigitC_digitOf h2, if_true,
    charVal_digitOf h1, charVal_digitOf h2, hx10]

lemma take4Digits_digits (y : Nat) (rest : List Char) :
    take4Digits (digitOf (y / 1000 % 10) :: digitOf (y / 100 % 10) ::
      digitOf (y / 10 % 10) :: digitOf (y % 10) :: rest) = some (y % 10000, rest) := by
  have h1 : y / 1000 % 10 < 10 := by omega
  have h2 : y / 100 % 10 < 10 := by omega
  have h3 : y / 10 % 10 < 10 := by omega
  have h4 : y % 10 < 10 := by omega
  have e1 : y / 10 / 10 = y / 100 := by rw [Nat.div_div_eq_div_mul]
  have e2 : y / 100 / 10 = y / 1000 := by rw [Nat.div_div_eq_div_mul]
  have e3 : y / 1000 / 10 = y / 10000 := by rw [Nat.div_div_eq_div_mul]
  have hy : y / 1000 % 10 * 1000 + y / 100 % 10 * 100 + y / 10 % 10 * 10 + y % 10
      = y % 10000 := by omega
  simp only [take4Digits, isDigitC_digitOf h1, isDigitC_digitOf h2, isDigitC_digitOf h3,
    isDigitC_digitOf h4, Bool.and_self, if_true, charVal_digitOf h1, charVal_digitOf h2,
    charVal_digitOf h3, charVal_digitOf h4, hy]

lemma strptime_formatDMY (dt : Date) (hv : ValidDate dt) (hy1 : 1 ≤ dt.year)
    (hy9 : dt.year ≤ 9999) : strptimeDMY (formatDMY dt) = some dt := by
  obtain ⟨⟨hm1, hm2⟩, hd1, hd2⟩ := hv
  have hdm : daysInMonth dt.year dt.month ≤ 31 := daysInMonth_le _ _
  have hd100 : dt.day < 100 := by omega
  have hm100 : dt.month < 100 := by omega
  have hmod : dt.year % 10000 = dt.year := Nat.mod_eq_of_lt (by omega)
  show parseDMYChars (fmtChars dt) = some dt
  simp only [fmtChars]
  unfold parseDMYChars
  rw [take2Digits_digits dt.day hd100]
  simp only [expectSlash]
  rw [take2Digits_digits dt.month hm100]
  simp only [expectSlash]
  rw [take4Digits_digits dt.year []]
  rw [hmod]
  show (if 1 ≤ dt.year ∧ 1 ≤ dt.month ∧ dt.month ≤ 12 ∧ 1 ≤ dt.day ∧
      dt.day ≤ daysInMonth dt.year dt.month
      then some (⟨dt.year, dt.month, dt.day⟩ : Date) else none) = some dt
  rw [if_pos ⟨hy1, hm1, hm2, hd1, hd2⟩]

end TgPayBot

namespace TgPayBot

/-! ## Kicker trace lemmas -/

lemma kickMultiple_false_cons (m : ChatMember) (rest : List ChatMember) :
    kickMultiple false (m :: rest)
      = KickEvent.kick m.user :: KickEvent.sleepMs SLEEP_TIME_MS :: kickMultiple false rest := by
  simp [kickMultiple]

lemma kicksOf_kickMultiple (members : List ChatMember) :
    kicksOf (kickMultiple false members) = members.map (fun m => m.user) := by
  induction members with
  | nil => rfl
  | cons m rest ih =>
    rw [kickMultiple_false_cons]
    simp only [kicksOf, List.filterMap_cons, List.map_cons] at ih ⊢
    rw [ih]

lemma kick_followed_by_sleep (members : List ChatMember) :
    ∀ i u, (kickMultiple false members).get? i = some (KickEvent.kick u) →
      (kickMultiple false members).get? (i + 1) = some (KickEvent.sleepMs SLEEP_TIME_MS) := by
  induction members with
  | nil => intro i u h; simp [kickMultiple] at h
  | cons m rest ih =>
    intro i u h
    rw [kickMultiple_false_cons] at h ⊢
    match i with
    | 0 => rfl
    | 1 => simp [List.get?] at h
    | j + 2 =>
      simp only [List.get?] at h ⊢
      exact ih j u h

/-! ## Claim theorems: dates and the kicker -/

/-- C7: a numeric date serial and the equivalently-valued string in the
configured default pattern `%d/%m/%Y` parse to the same calendar date at
day granularity; the numeric cell is settled by the serial conversion
alone (first stage) and the string cell by the `strptime` fallback alone
(second stage). -/
theorem C7_date_parse_round_trip (n : Nat) (hy : (dateOfSerial n).year ≤ 9999) :
    parseExpirationCell (Cell.Num n) = some (dateOfSerial n) ∧
    parseExpirationCell (Cell.Str (formatDMY (dateOfSerial n))) = some (dateOfSerial n) := by
  have hv := validDate_dateOfSerial n
  have hy1 : 1 ≤ (dateOfSerial n).year :=
    Nat.le_trans (by omega) (year_dateOfSerial n)
  refine ⟨rfl, ?_⟩
  show strptimeDMY (pyStrip (formatDMY (dateOfSerial n))) = some (dateOfSerial n)
  have hd100 : (dateOfSerial n).day < 100 := by
    obtain ⟨_, _, h2⟩ := hv
    have := daysInMonth_le (dateOfSerial n).year (dateOfSerial n).month
    omega
  rw [pyStrip_formatDMY _ hd100]
  exact strptime_formatDMY _ hv hy1 hy

set_option maxRecDepth 4000 in
/-- Witness for C7 at serial 61 (1900-03-01). -/
theorem C7_witness :
    (dateOfSerial 61).year ≤ 9999 ∧
    (parseExpirationCell (Cell.Num 61) = some (dateOfSerial 61) ∧
     parseExpirationCell (Cell.Str (formatDMY (dateOfSerial 61))) = some (dateOfSerial 61)) :=
  ⟨by decide, C7_date_parse_round_trip 61 (by decide)⟩

/-- C3: for every chat and member snapshot the member list returned by
`KickAllWithExpiredPayment`, and the booleans returned by the single-member
and no-username variants, are the same whatever the test-mode flag; with
the flag on, no removal call (indeed no external call at all) is issued in
either the single or the bulk path. -/
theorem C3_test_mode_transparent {Chat : Type} (tm1 tm2 : Bool)
    (getExpired : Chat → List ChatMember) (isExpired : Chat → User → Bool)
    (isValidMember : ChatMember → Bool) (getMembers : Chat → List ChatMember)
    (chat : Chat) (user : User) :
    (KickAllWithExpiredPayment tm1 getExpired chat).1
      = (KickAllWithExpiredPayment tm2 getExpired chat).1 ∧
    (KickSingleIfExpiredPayment tm1 isExpired chat user).1
      = (KickSingleIfExpiredPayment tm2 isExpired chat user).1 ∧
    (KickSingleIfNoUsername tm1 user).1 = (KickSingleIfNoUsername tm2 user).1 ∧
    (KickAllWithNoUsername tm1 isValidMember getMembers chat).1
      = (KickAllWithNoUsername tm2 isValidMember getMembers chat).1 ∧
    (KickAllWithExpiredPayment true getExpired chat).2 = [] ∧
    (KickSingleIfExpiredPayment true isExpired chat user).2 = [] ∧
    (KickSingleIfNoUsername true user).2 = [] ∧
    (KickAllWithNoUsername true isValidMember getMembers chat).2 = [] := by
  refine ⟨rfl, rfl, rfl, rfl, ?_, ?_, ?_, ?_⟩ <;>
    simp [KickAllWithExpiredPayment, KickSingleIfExpiredPayment,
      KickSingleIfNoUsername, KickAllWithNoUsername, kickMultiple, kickSingle]

/-- C6: bulk removal with test mode off calls the removal primitive once
per member, in snapshot order, and every removal call is immediately
followed by the fixed 10 ms sleep, so no two removal calls happen without
an intervening delay. -/
theorem C6_throttled_sequential (members : List ChatMember) :
    kicksOf (kickMultiple false members) = members.map (fun m => m.user) ∧
    (∀ i u, (kickMultiple false members).get? i = some (KickEvent.kick u) →
      (kickMultiple false members).get? (i + 1) = some (KickEvent.sleepMs SLEEP_TIME_MS)) :=
  ⟨kicksOf_kickMultiple members, kick_followed_by_sleep members⟩

/-- Witness for C6 on a one-member batch. -/
theorem C6_witness :
    kicksOf (kickMultiple false [(⟨some ⟨1, some "a"⟩⟩ : ChatMember)])
      = [some ⟨1, some "a"⟩] ∧
    (kickMultiple false [(⟨some ⟨1, some "a"⟩⟩ : ChatMember)]).get? 1
      = some (KickEvent.sleepMs SLEEP_TIME_MS) :=
  ⟨(C6_throttled_sequential _).1,
   (C6_throttled_sequential _).2 0 (some ⟨1, some "a"⟩) (by decide)⟩

/-- C10: the bulk no-username path only ever selects members that pass the
external validity check, while the single-member path decides on the
absence of a username alone and attempts removal even for a user the bulk
filter would exclude. -/
theorem C10_single_path_skips_validity_check :
    (∀ (isValidMember : ChatMember → Bool) (members : List ChatMember) (m : ChatMember),
      m ∈ GetAllWithNoUsername isValidMember members → isValidMember m = true) ∧
    (∀ user : User, user.username = none →
      (KickSingleIfNoUsername false user).1 = true ∧
      (KickSingleIfNoUsername false user).2 = [KickEvent.kick (some user)]) := by
  constructor
  · intro valid members m hm
    unfold GetAllWithNoUsername at hm
    have h := (List.mem_filter.mp hm).2
    simp only [Bool.and_eq_true] at h
    exact h.1
  · intro u hu
    refine ⟨?_, ?_⟩
    · simp [KickSingleIfNoUsername, hu]
    · simp [KickSingleIfNoUsername, kickSingle, hu]

/-- Witness for C10: a username-less user (id 7) that an always-true
validity filter keeps, and that the single path kicks. -/
theorem C10_witness :
    (fun _ : ChatMember => true) (⟨some ⟨7, none⟩⟩ : ChatMember) = true ∧
    ((KickSingleIfNoUsername false ⟨7, none⟩).1 = true ∧
     (KickSingleIfNoUsername false ⟨7, none⟩).2 = [KickEvent.kick (some ⟨7, none⟩)]) :=
  ⟨C10_single_path_skips_validity_check.1 (fun _ => true)
      [⟨some ⟨7, none⟩⟩] ⟨some ⟨7, none⟩⟩ (by decide),
   C10_single_path_skips_validity_check.2 ⟨7, none⟩ rfl⟩

end TgPayBot

namespace TgPayBot

/-! ## Loader lemmas -/

lemma not_mem_usernames_of_not_any {pd : PaymentsData} {u : String}
    (h : ¬(pd.any (fun p => p.username == u) = true)) : u ∉ usernames pd := by
  intro hmem
  apply h
  rw [List.any_eq_true]
  rcases List.mem_map.mp hmem with ⟨p, hp, hpu⟩
  exact ⟨p, hp, by simp [hpu]⟩

lemma addPayment_parse_some (i : Nat) (pd : PaymentsData) (pe : PaymentsDataErrors)
    (e u : String) (c : Cell) (dt : Date) (hp : parseExpirationCell c = some dt) :
    addPayment i pd pe e u c
      = (match addPaymentData pd e u dt with
         | some pd2 => (pd2, pe)
         | none => (pd, pe ++ [⟨PaymentErrorTypes.DUPLICATED_USERNAME_ERR, i + 1, u, none⟩])) := by
  unfold addPayment
  rw [hp]

lemma addPayment_fst_nodup (i : Nat) (pd : PaymentsData) (pe : PaymentsDataErrors)
    (e u : String) (c : Cell) (h : (usernames pd).Nodup) :
    (usernames (addPayment i pd pe e u c).1).Nodup := by
  unfold addPayment
  cases parseExpirationCell c with
  | none => exact h
  | some dt =>
    unfold addPaymentData
    by_cases hdup : pd.any (fun p => p.username == u) = true
    · simp only [hdup, if_true]
      exact h
    · simp only [hdup, if_false]
      have hnm := not_mem_usernames_of_not_any hdup
      show (usernames (pd ++ [⟨e, u, dt⟩])).Nodup
      simp only [usernames, List.map_append, List.map_cons, List.map_nil] at h hnm ⊢
      rw [List.nodup_append]
      refine ⟨h, List.nodup_singleton u, ?_⟩
      intro a ha hb
      simp only [List.mem_singleton] at hb
      subst hb
      exact hnm ha

lemma loadSheetAux_fst_nodup :
    ∀ (rows : List Row) (i : Nat) (pd : PaymentsData) (pe : PaymentsDataErrors),
    (usernames pd).Nodup → (usernames (loadSheetAux i rows pd pe).1).Nodup := by
  intro rows
  induction rows with
  | nil => intro i pd pe h; exact h
  | cons r rs ih =>
    intro i pd pe h
    by_cases hi : i > 0
    · by_cases hu : pyStrip (cellStr r.username) ≠ ""
      · have hstep : loadSheetAux i (r :: rs) pd pe
            = loadSheetAux (i + 1) rs
                (addPayment i pd pe (pyStrip (cellStr r.email))
                  (pyStrip (cellStr r.username)) r.expiration).1
                (addPayment i pd pe (pyStrip (cellStr r.email))
                  (pyStrip (cellStr r.username)) r.expiration).2 := by
          simp [loadSheetAux, hi, hu]
        rw [hstep]
        exact ih _ _ _ (addPayment_fst_nodup _ _ _ _ _ _ h)
      · have hstep : loadSheetAux i (r :: rs) pd pe = loadSheetAux (i + 1) rs pd pe := by
          simp [loadSheetAux, hi, hu]
        rw [hstep]
        exact ih _ _ _ h
    · have hstep : loadSheetAux i (r :: rs) pd pe = loadSheetAux (i + 1) rs pd pe := by
        simp [loadSheetAux, hi]
      rw [hstep]
      exact ih _ _ _ h

lemma addPayment_snd_shape (i : Nat) (pd : PaymentsData) (pe : PaymentsDataErrors)
    (e u : String) (c : Cell) :
    (addPayment i pd pe e u c).2 = pe ∨
    ∃ t rv, (addPayment i pd pe e u c).2 = pe ++ [⟨t, i + 1, u, rv⟩] := by
  unfold addPayment
  split
  · exact Or.inr ⟨_, _, rfl⟩
  · split
    · exact Or.inl rfl
    · exact Or.inr ⟨_, _, rfl⟩

lemma loadSheetAux_err_mem :
    ∀ (rows : List Row) (i : Nat) (pd : PaymentsData) (pe : PaymentsDataErrors)
      (err : PaymentErrorEntry),
    err ∈ (loadSheetAux i rows pd pe).2 →
    err ∈ pe ∨ ∃ k, ∃ hk : k < rows.length, 0 < i + k ∧ err.row = i + k + 1 ∧
      err.username = pyStrip (cellStr rows[k].username) := by
  intro rows
  induction rows with
  | nil => intro i pd pe err h; exact Or.inl h
  | cons r rs ih =>
    intro i pd pe err h
    by_cases hi : i > 0
    · by_cases hu : pyStrip (cellStr r.username) ≠ ""
      · have hstep : loadSheetAux i (r :: rs) pd pe
            = loadSheetAux (i + 1) rs
                (addPayment i pd pe (pyStrip (cellStr r.email))
                  (pyStrip (cellStr r.username)) r.expiration).1
                (addPayment i pd pe (pyStrip (cellStr r.email))
                  (pyStrip (cellStr r.username)) r.expiration).2 := by
          simp [loadSheetAux, hi, hu]
        rw [hstep] at h
        rcases ih (i + 1) _ _ err h with h1 | ⟨k, hk, hik, hrow, husr⟩
        · rcases addPayment_snd_shape i pd pe (pyStrip (cellStr r.email))
            (pyStrip (cellStr r.username)) r.expiration with hs | ⟨t, rv, hs⟩
          · rw [hs] at h1
            exact Or.inl h1
          · rw [hs] at h1
            rcases List.mem_append.mp h1 with h2 | h2
            · exact Or.inl h2
            · simp only [List.mem_singleton] at h2
              subst h2
              exact Or.inr ⟨0, by simp, by omega, rfl, rfl⟩
        · refine Or.inr ⟨k + 1, by simpa using hk, by omega, by omega, ?_⟩
          simpa using husr
      · have hstep : loadSheetAux i (r :: rs) pd pe = loadSheetAux (i + 1) rs pd pe := by
          simp [loadSheetAux, hi, hu]
        rw [hstep] at h
        rcases ih (i + 1) _ _ err h with h1 | ⟨k, hk, hik, hrow, husr⟩
        · exact Or.inl h1
        · refine Or.inr ⟨k + 1, by simpa using hk, by omega, by omega, ?_⟩
          simpa using husr
    · have hstep : loadSheetAux i (r :: rs) pd pe = loadSheetAux (i + 1) rs pd pe := by
        simp [loadSheetAux, hi]
      rw [hstep] at h
      rcases ih (i + 1) _ _ err h with h1 | ⟨k, hk, hik, hrow, husr⟩
      · exact Or.inl h1
      · refine Or.inr ⟨k + 1, by simpa using hk, by omega, by omega, ?_⟩
        simpa using husr

/-! ## Claim theorems: the loader -/

/-- C1: no two entries of a loaded roster share a username, and at the
insertion stage a row whose (parseable) username already exists leaves the
roster unchanged and appends exactly one `DUPLICATED_USERNAME_ERR` carrying
the later row's reported number and the username. -/
theorem C1_roster_unique :
    (∀ rows : Sheet, (usernames (loadSheet rows).1).Nodup) ∧
    (∀ (i : Nat) (pd : PaymentsData) (pe : PaymentsDataErrors) (e u : String)
       (c : Cell) (dt : Date),
      parseExpirationCell c = some dt → u ∈ usernames pd →
      addPayment i pd pe e u c
        = (pd, pe ++ [⟨PaymentErrorTypes.DUPLICATED_USERNAME_ERR, i + 1, u, none⟩])) := by
  constructor
  · intro rows
    exact loadSheetAux_fst_nodup rows 0 [] [] List.nodup_nil
  · intro i pd pe e u c dt hp hmem
    rw [addPayment_parse_some i pd pe e u c dt hp]
    rcases List.mem_map.mp hmem with ⟨p, hpmem, hpu⟩
    have hnone : addPaymentData pd e u dt = none := by
      unfold addPaymentData
      rw [if_pos (List.any_eq_true.mpr ⟨p, hpmem, by simp [hpu]⟩)]
    rw [hnone]

/-- Witness for C1: a sheet with a duplicated username, and a concrete
duplicate insertion. -/
theorem C1_witness :
    parseExpirationCell (Cell.Str "05/06/2024") = some ⟨2024, 6, 5⟩ ∧
    "alice" ∈ usernames [(⟨"a@b.c", "alice", ⟨2024, 1, 1⟩⟩ : SinglePayment)] ∧
    (usernames (loadSheet [⟨Cell.Str "e", Cell.Str "u", Cell.Str "h"⟩,
        ⟨Cell.Str "a@b.c", Cell.Str "alice", Cell.Str "05/06/2024"⟩,
        ⟨Cell.Str "c@d.e", Cell.Str "alice", Cell.Str "05/06/2024"⟩]).1).Nodup ∧
    addPayment 2 [(⟨"a@b.c", "alice", ⟨2024, 1, 1⟩⟩ : SinglePayment)] [] "c@d.e" "alice"
        (Cell.Str "05/06/2024")
      = ([⟨"a@b.c", "alice", ⟨2024, 1, 1⟩⟩],
         [⟨PaymentErrorTypes.DUPLICATED_USERNAME_ERR, 3, "alice", none⟩]) :=
  ⟨by decide, by decide,
   C1_roster_unique.1 _,
   C1_roster_unique.2 2 _ [] "c@d.e" "alice" _ ⟨2024, 6, 5⟩ (by decide) (by decide)⟩

/-- C2: a data row with non-empty username whose expiration parses neither
as a numeric serial nor in the configured format contributes nothing to
the roster, appends exactly one `INVALID_DATE_ERR` carrying the username
and the original raw cell value, and loading continues with the
subsequent rows. -/
theorem C2_invalid_date_row (i : Nat) (r : Row) (rs : List Row)
    (pd : PaymentsData) (pe : PaymentsDataErrors) (hi : 0 < i)
    (hu : pyStrip (cellStr r.username) ≠ "")
    (hp : parseExpirationCell r.expiration = none) :
    loadSheetAux i (r :: rs) pd pe
      = loadSheetAux (i + 1) rs pd
          (pe ++ [⟨PaymentErrorTypes.INVALID_DATE_ERR, i + 1,
                   pyStrip (cellStr r.username), some r.expiration⟩]) := by
  have ha : addPayment i pd pe (pyStrip (cellStr r.email)) (pyStrip (cellStr r.username))
      r.expiration
      = (pd, pe ++ [⟨PaymentErrorTypes.INVALID_DATE_ERR, i + 1,
                     pyStrip (cellStr r.username), some r.expiration⟩]) := by
    unfold addPayment
    rw [hp]
  simp [loadSheetAux, hi, hu, ha]

/-- Witness for C2 on a concrete unparseable expiration. -/
theorem C2_witness :
    0 < 1 ∧ pyStrip (cellStr (Cell.Str "alice")) ≠ "" ∧
    parseExpirationCell (Cell.Str "notadate") = none ∧
    loadSheetAux 1 [(⟨Cell.Str "a@b.c", Cell.Str "alice", Cell.Str "notadate"⟩ : Row)] [] []
      = loadSheetAux 2 [] []
          [⟨PaymentErrorTypes.INVALID_DATE_ERR, 2, "alice", some (Cell.Str "notadate")⟩] :=
  ⟨by decide, by decide, by decide,
   by
    have := C2_invalid_date_row 1 ⟨Cell.Str "a@b.c", Cell.Str "alice", Cell.Str "notadate"⟩
      [] [] [] (by decide) (by decide) (by decide)
    simpa using this⟩

/-- C4 counterexample: the first data row after the header (sheet index 1)
with an unparseable date is recorded with `rowNumber = 2`, not `1`. -/
theorem C4_counterexample :
    (loadSheet [⟨Cell.Str "email", Cell.Str "username", Cell.Str "expiration"⟩,
                ⟨Cell.Str "a@b.c", Cell.Str "alice", Cell.Str "notadate"⟩]).2
      = [⟨PaymentErrorTypes.INVALID_DATE_ERR, 2, "alice", some (Cell.Str "notadate")⟩] ∧
    ¬ ((loadSheet [⟨Cell.Str "email", Cell.Str "username", Cell.Str "expiration"⟩,
                   ⟨Cell.Str "a@b.c", Cell.Str "alice", Cell.Str "notadate"⟩]).2.map
          (fun err => err.row) = [1]) := by
  constructor
  · decide
  · decide

/-- C4 (amended): every accumulated error carries
`rowNumber = (0-based sheet index of the offending row) + 1`, the header
row being index 0 — so the first data row is reported as row 2 — and the
error's username is the stripped username of that row. -/
theorem C4_rowNumber (rows : Sheet) (err : PaymentErrorEntry)
    (h : err ∈ (loadSheet rows).2) :
    ∃ k, ∃ hk : k < rows.length, 1 ≤ k ∧ err.row = k + 1 ∧
      err.username = pyStrip (cellStr rows[k].username) := by
  rcases loadSheetAux_err_mem rows 0 [] [] err h with h1 | ⟨k, hk, hik, hrow, husr⟩
  · cases h1
  · exact ⟨k, hk, by omega, by omega, husr⟩

/-- Witness for C4 on the two-row sheet of the counterexample. -/
theorem C4_witness :
    (⟨PaymentErrorTypes.INVALID_DATE_ERR, 2, "alice", some (Cell.Str "notadate")⟩ :
        PaymentErrorEntry)
      ∈ (loadSheet [⟨Cell.Str "email", Cell.Str "username", Cell.Str "expiration"⟩,
                    ⟨Cell.Str "a@b.c", Cell.Str "alice", Cell.Str "notadate"⟩]).2 ∧
    (∃ k, ∃ hk : k < ([⟨Cell.Str "email", Cell.Str "username", Cell.Str "expiration"⟩,
                       ⟨Cell.Str "a@b.c", Cell.Str "alice", Cell.Str "notadate"⟩] :
          Sheet).length,
      1 ≤ k ∧
      (⟨PaymentErrorTypes.INVALID_DATE_ERR, 2, "alice", some (Cell.Str "notadate")⟩ :
          PaymentErrorEntry).row = k + 1 ∧
      (⟨PaymentErrorTypes.INVALID_DATE_ERR, 2, "alice", some (Cell.Str "notadate")⟩ :
          PaymentErrorEntry).username
        = pyStrip (cellStr (([⟨Cell.Str "email", Cell.Str "username", Cell.Str "expiration"⟩,
                              ⟨Cell.Str "a@b.c", Cell.Str "alice", Cell.Str "notadate"⟩] :
            Sheet)[k].username))) :=
  ⟨by decide, C4_rowNumber _ _ (by decide)⟩

/-- C5: a data row whose username is empty after stripping contributes
neither a roster entry nor an error entry, whatever its other cells hold. -/
theorem C5_blank_username_silent (i : Nat) (r : Row) (rs : List Row)
    (pd : PaymentsData) (pe : PaymentsDataErrors) (hi : 0 < i)
    (hu : pyStrip (cellStr r.username) = "") :
    loadSheetAux i (r :: rs) pd pe = loadSheetAux (i + 1) rs pd pe := by
  simp [loadSheetAux, hi, hu]

/-- Witness for C5 on a whitespace-only username cell. -/
theorem C5_witness :
    0 < 1 ∧ pyStrip (cellStr (Cell.Str "  ")) = "" ∧
    loadSheetAux 1 [(⟨Cell.Str "a@b.c", Cell.Str "  ", Cell.Str "notadate"⟩ : Row)] [] []
      = loadSheetAux 2 [] [] [] :=
  ⟨by decide, by decide,
   C5_blank_username_silent 1 ⟨Cell.Str "a@b.c", Cell.Str "  ", Cell.Str "notadate"⟩
     [] [] [] (by decide) (by decide)⟩

/-- C8: `LoadAll`, `CheckForErrors` and `LoadSingleByUsername` are the two
components, and the username lookup in the first component, of the one
underlying parse pass `__LoadAndCheckAll` on the same source content. -/
theorem C8_one_parse_pass (src : OpenedSource) (u : String) :
    LoadAll src = (LoadAndCheckAll src).map Prod.fst ∧
    CheckForErrors src = (LoadAndCheckAll src).map Prod.snd ∧
    LoadSingleByUsername src u = (LoadAll src).map (fun pd => GetByUsername pd u) ∧
    (∀ rows : Sheet, src = Except.ok rows →
      LoadAll src = Except.ok (loadSheet rows).1 ∧
      CheckForErrors src = Except.ok (loadSheet rows).2 ∧
      LoadSingleByUsername src u = Except.ok (GetByUsername (loadSheet rows).1 u)) := by
  refine ⟨rfl, rfl, rfl, ?_⟩
  intro rows h
  subst h
  exact ⟨rfl, rfl, rfl⟩

/-- Witness for C8 on the empty sheet. -/
theorem C8_witness :
    LoadAll (Except.ok ([] : Sheet)) = Except.ok (loadSheet []).1 ∧
    CheckForErrors (Except.ok ([] : Sheet)) = Except.ok (loadSheet []).2 ∧
    LoadSingleByUsername (Except.ok ([] : Sheet)) "u"
      = Except.ok (GetByUsername (loadSheet []).1 "u") :=
  (C8_one_parse_pass (Except.ok []) "u").2.2.2 [] rfl

/-- C9: when opening or reading the source fails, the failure is re-raised
through every loader capability and no roster (not even a partial one) is
produced. -/
theorem C9_fatal_source_error (e : String) (u : String) :
    LoadAndCheckAll (Except.error e) = Except.error e ∧
    LoadAll (Except.error e) = Except.error e ∧
    CheckForErrors (Except.error e) = Except.error e ∧
    LoadSingleByUsername (Except.error e) u = Except.error e :=
  ⟨rfl, rfl, rfl, rfl⟩

end TgPayBot
